import Mathlib

/-!
Verification development for the gpspi GPS data and photo logger
(`gpslogger.py`).

The Python source is shallowly embedded: Python floats are modelled by
exact rationals (`ℚ`) extended with the non-finite values `nan`, `inf`
and `-inf` (`PyFloat`); Python `int()` (truncation toward zero) is
`pyInt`; operations that can raise return `Except`/`Option`.  External
collaborators are modelled at exactly the boundary at which the script
calls them: geopy's geodesic distance is a function parameter `dist`,
the camera and the CSV file are an ordered list of abstract `Effect`s,
and gpsd's report stream is a list of `Report` values.  The display
strings derived from the accepted fix (date, time, stringified numeric
fields, lines 122-134 of the source) do not influence the gating logic
and enter the logging phase as opaque `RowFields`.
-/

namespace GpsPi

/-- Python `int()` on a real value: truncation toward zero. -/
def pyInt (q : ℚ) : ℤ :=
  if 0 ≤ q then ⌊q⌋ else ⌈q⌉

/-- Function `dec2dms` (gpslogger.py lines 66-73): convert decimal degrees
to a (degrees, minutes, seconds×100) triple.  `math.fabs` drops the sign,
then each component is obtained by Python `int()` truncation:
`degrees = int(ddeg)`, `minutes = int(60 * (ddeg - degrees))`,
`seconds = int(6000 * (60 * (ddeg - degrees) - minutes))`. -/
def dec2dms (ddeg : ℚ) : ℤ × ℤ × ℤ :=
  let a := |ddeg|
  let degrees := pyInt a
  let minutes := pyInt (60 * (a - degrees))
  let seconds := pyInt (6000 * (60 * (a - degrees) - minutes))
  (degrees, minutes, seconds)

/-- Value of a Python float: a finite rational, or NaN, or ±infinity.
The script only ever produces doubles whose exact value is a small
decimal, so finite doubles are carried as exact rationals. -/
inductive PyFloat where
  | fin (q : ℚ)
  | nan
  | inf
  | ninf
deriving DecidableEq, Repr

/-- A Python value fed to `float()` by this script: a string from the
GPS report stream, or an already-numeric report attribute. -/
inductive PyVal where
  | str (s : String)
  | num (q : ℚ)
deriving DecidableEq, Repr

instance {ε α : Type} [DecidableEq ε] [DecidableEq α] : DecidableEq (Except ε α)
  | Except.ok a, Except.ok b =>
    if h : a = b then isTrue (by rw [h]) else isFalse (by simp [h])
  | Except.ok _, Except.error _ => isFalse (by simp)
  | Except.error _, Except.ok _ => isFalse (by simp)
  | Except.error a, Except.error b =>
    if h : a = b then isTrue (by rw [h]) else isFalse (by simp [h])

/-- Characters stripped by Python's `str.strip()` (whitespace). -/
def pyIsSpace (c : Char) : Bool :=
  c = ' ' ∨ c = '\t' ∨ c = '\n' ∨ c = '\r' ∨ c = '\x0b' ∨ c = '\x0c'

/-- ASCII lower-casing, as Python applies to float literals such as
`"Infinity"` and `"NaN"` (their parse is case-insensitive). -/
def pyLower (c : Char) : Char :=
  if 'A' ≤ c ∧ c ≤ 'Z' then Char.ofNat (c.toNat + 32) else c

/-- Python `str.strip()` on a character list. -/
def pyStrip (cs : List Char) : List Char :=
  ((cs.dropWhile pyIsSpace).reverse.dropWhile pyIsSpace).reverse

/-- Value of a run of decimal digits. -/
def digitsToNat (cs : List Char) : ℕ :=
  cs.foldl (fun a c => 10 * a + (c.toNat - 48)) 0

/-- Parse the optional exponent suffix of a float literal (empty, or
`e` followed by an optional sign and at least one digit, consuming the
whole remainder).  `none` models `ValueError`. -/
def parseExpPart : List Char → Option ℤ
  | [] => some 0
  | 'e' :: r =>
    let p : ℤ × List Char := match r with
      | '+' :: t => (1, t)
      | '-' :: t => (-1, t)
      | _ => (1, r)
    let ds := p.2.takeWhile Char.isDigit
    let rest := p.2.dropWhile Char.isDigit
    if ds ≠ [] ∧ rest = [] then some (p.1 * (digitsToNat ds : ℤ)) else none
  | _ => none

/-- Exact value of the decimal literal `sgn ip.fp × 10^e`, built with
`mkRat` so that it evaluates inside the kernel. -/
def pyDecimalVal (ip fp : List Char) (e sgn : ℤ) : ℚ :=
  let n : ℤ := sgn * ((digitsToNat ip * 10 ^ fp.length + digitsToNat fp : ℕ) : ℤ)
  let e2 : ℤ := e - fp.length
  if 0 ≤ e2 then mkRat (n * 10 ^ e2.toNat) 1 else mkRat n (10 ^ (-e2).toNat)

/-- Python `float(s)` on a string: strip whitespace, optional sign, then
either an infinity literal (`inf`/`infinity`, case-insensitive), `nan`,
or a decimal literal with optional fraction and exponent.  `none` models
`ValueError`.  The decimal value is kept exact rather than rounded to
binary64; every literal this development evaluates is reproduced exactly
by the double rounding as well. -/
def pyStrToFloat (s : String) : Option PyFloat :=
  let cs := (pyStrip s.toList).map pyLower
  let p : ℤ × List Char := match cs with
    | '+' :: t => (1, t)
    | '-' :: t => (-1, t)
    | _ => (1, cs)
  let sgn := p.1
  let body := p.2
  if body = ['i', 'n', 'f'] ∨ body = ['i', 'n', 'f', 'i', 'n', 'i', 't', 'y'] then
    some (if sgn = 1 then PyFloat.inf else PyFloat.ninf)
  else if body = ['n', 'a', 'n'] then some PyFloat.nan
  else
    let ip := body.takeWhile Char.isDigit
    let rest := body.dropWhile Char.isDigit
    match rest with
    | '.' :: t =>
      let fp := t.takeWhile Char.isDigit
      let rest2 := t.dropWhile Char.isDigit
      if ip = [] ∧ fp = [] then none
      else (parseExpPart rest2).map (fun e => PyFloat.fin (pyDecimalVal ip fp e sgn))
    | _ =>
      if ip = [] then none
      else (parseExpPart rest).map (fun e => PyFloat.fin (pyDecimalVal ip [] e sgn))

/-- Python `float(x)` for the two kinds of value this script passes to
it: a string (parsed) or an already-numeric value (identity). -/
def pyFloatOf : PyVal → Option PyFloat
  | PyVal.num q => some (PyFloat.fin q)
  | PyVal.str s => pyStrToFloat s

/-- Function `is_number` (gpslogger.py lines 77-82): `float(s)` inside a
`try`, returning `x == x` on success and `False` on `ValueError`.  In
Python `x == x` is `False` exactly for NaN; both infinities compare
equal to themselves, so they pass this test. -/
def is_number (v : PyVal) : Bool :=
  match pyFloatOf v with
  | some PyFloat.nan => false
  | some _ => true
  | none => false

/-- Function `strtofloat` (gpslogger.py lines 85-87): if `is_number`
rejects the input it is replaced by `0.0`, then `float` is applied. -/
def strtofloat (v : PyVal) : PyFloat :=
  if is_number v then (pyFloatOf v).getD (PyFloat.fin 0) else PyFloat.fin 0

/-- Python truthiness of a float (`if lon and lat`): `0.0` is falsy,
every other float (including NaN and ±infinity) is truthy. -/
def pyTruthy : PyFloat → Bool
  | PyFloat.fin q => q ≠ 0
  | _ => true

/-- Python `int()` on a float value: truncation for finite values;
`int(nan)` and `int(±inf)` raise (`ValueError`/`OverflowError`). -/
def pyIntF : PyFloat → Except Unit ℤ
  | PyFloat.fin q => Except.ok (pyInt q)
  | _ => Except.error ()

/-- One report from the gpsd stream: its `class` tag, the length of its
`satellites` list (only meaningful on SKY reports), and its optional
`lat`, `lon` and `mode` attributes as read by `getattr`. -/
structure Report where
  cls : String
  satCount : ℕ
  lat : Option PyVal
  lon : Option PyVal
  mode : Option PyVal
deriving DecidableEq, Repr

/-- Function `latlonfix` (gpslogger.py lines 90-95): parse `lat`, `lon`
and `mode` from a report with `strtofloat`, defaulting missing
attributes to `0.0`; `satfix = int(strtofloat(mode))` can raise. -/
def latlonfix (r : Report) : Except Unit (PyFloat × PyFloat × ℤ) :=
  let lat := strtofloat (r.lat.getD (PyVal.num 0))
  let lon := strtofloat (r.lon.getD (PyVal.num 0))
  match pyIntF (strtofloat (r.mode.getD (PyVal.num 0))) with
  | Except.error e => Except.error e
  | Except.ok satfix => Except.ok (lat, lon, satfix)

/-- State of the acquisition loop of `logGPSdata` (gpslogger.py lines
99-119): the two loop flags, the satellite count, the last parsed
coordinates and fix mode, and the saved accepted report (unset until a
report is accepted). -/
structure AcqState where
  noSats : Bool
  noCoords : Bool
  sats : ℕ
  lat : PyFloat
  lon : PyFloat
  satfix : ℤ
  saveReport : Option Report
deriving DecidableEq, Repr

/-- Loop state on entry: `lat = lon = 0.0`, `satfix = 0`, `sats = 0`
(lines 99-102), `noSats = noCoords = True` (line 108). -/
def initAcqState : AcqState :=
  { noSats := true, noCoords := true, sats := 0,
    lat := PyFloat.fin 0, lon := PyFloat.fin 0, satfix := 0, saveReport := none }

/-- State after a SKY report is recorded (lines 112-113). -/
def skyState (st : AcqState) (r : Report) : AcqState :=
  { st with
    sats := r.satCount
    noSats := false }

/-- State after a TPV report is accepted as the final fix (lines
115-118): coordinates stored, report saved, `noCoords` cleared. -/
def acceptState (st : AcqState) (r : Report) (lat lon : PyFloat) (satfix : ℤ) : AcqState :=
  { st with
    lat := lat
    lon := lon
    satfix := satfix
    saveReport := some r
    noCoords := false }

/-- State after a TPV report is parsed but not accepted (line 115): the
assignment `(lat,lon,satfix) = latlonfix(report)` still happened. -/
def rejectState (st : AcqState) (lat lon : PyFloat) (satfix : ℤ) : AcqState :=
  { st with
    lat := lat
    lon := lon
    satfix := satfix }

/-- One iteration of the acquisition loop body (gpslogger.py lines
110-119) on the next report.  The returned `Bool` records whether this
iteration executed `time.sleep(0.5)` (line 119, reached when the parsed
coordinates are not both truthy and `not satfix`, i.e. `satfix = 0`).
`Except.error` models an exception from `int()` in `latlonfix`. -/
def acquireStep (st : AcqState) (r : Report) : Except Unit (AcqState × Bool) :=
  if r.cls = "SKY" ∧ st.noSats = true then
    Except.ok (skyState st r, false)
  else if r.cls = "TPV" ∧ st.noCoords = true then
    match latlonfix r with
    | Except.error e => Except.error e
    | Except.ok (lat, lon, satfix) =>
      if pyTruthy lon && pyTruthy lat then
        Except.ok (acceptState st r lat lon satfix, false)
      else if satfix = 0 then
        Except.ok (rejectState st lat lon satfix, true)
      else
        Except.ok (rejectState st lat lon satfix, false)
  else
    Except.ok (st, false)

/-- The acquisition loop `while noSats or noCoords` (line 109) run
against a finite prefix of the infinite gpsd stream.  It returns
`some` final state when the loop condition becomes false, `none` when
the prefix is exhausted first, together with the number of
`time.sleep(0.5)` calls executed. -/
def acquireLoop : AcqState → List Report → Except Unit (Option AcqState × ℕ)
  | st, [] =>
    if st.noSats = false ∧ st.noCoords = false then Except.ok (some st, 0)
    else Except.ok (none, 0)
  | st, r :: rest =>
    if st.noSats = false ∧ st.noCoords = false then Except.ok (some st, 0)
    else
      match acquireStep st r with
      | Except.error e => Except.error e
      | Except.ok (st2, slept) =>
        match acquireLoop st2 rest with
        | Except.error e => Except.error e
        | Except.ok (res, n) => Except.ok (res, n + (if slept then 1 else 0))

/-- Observable side effect of one logging event, in program order: a
CSV append (line 154) or a camera capture (line 177). -/
inductive Effect where
  | writeCSV (row : String)
  | capture (path : String)
deriving DecidableEq, Repr

/-- The already-stringified row fields derived from the accepted fix
(gpslogger.py lines 122-134): `date_str`, `time_str`, `str(lat)`,
`str(lon)`, `str(speed_mph)`, `str(alt_feet)`, `str(temp_f)`,
`str(sats)`.  They are opaque to the gating logic. -/
structure RowFields where
  date_str : String
  time_str : String
  lat_str : String
  lon_str : String
  speed_str : String
  alt_str : String
  temp_str : String
  sats_str : String
deriving DecidableEq, Repr

/-- The string written by `f.write('%s,%s,%s,%s,%s,%s,%s,%s,%s' % ...)`
(gpslogger.py line 154): the nine fields joined by commas, with no
terminating newline in the format string. -/
def rowString (f : RowFields) (picname : String) : String :=
  f.date_str ++ "," ++ f.time_str ++ "," ++ f.lat_str ++ "," ++ f.lon_str ++ ","
    ++ f.speed_str ++ "," ++ f.alt_str ++ "," ++ f.temp_str ++ "," ++ f.sats_str
    ++ "," ++ picname

/-- The header row written once at startup (gpslogger.py line 218),
newline-terminated. -/
def csvHeader : String := "Date,Localtime,latitude,longitude,speed,alt,temp,sats,photo\n"

/-- Photo filename `subdir + '-' + str(ndx) + '.jpg'` (line 139). -/
def picnameOf (subdir : String) (ndx : ℕ) : String :=
  subdir ++ "-" ++ toString ndx ++ ".jpg"

/-- The distance-gated logging phase of `logGPSdata` (gpslogger.py lines
136-179), entered with the acquired fix position `cur_loc` and the
session's `prev_loc` and photo index `ndx`.  geopy's
`distance.distance(prev_loc, cur_loc).feet` is the external collaborator
`dist`.  If the distance is strictly greater than `dtraveled`, the index
is incremented (line 138), one CSV row is appended (lines 153-154) and
then one photo is captured (line 177), in that order; otherwise nothing
is emitted.  Line 179 returns `(cur_loc, ndx)` unconditionally — also on
a gated cycle. -/
def logGPSdata (dist : ℚ × ℚ → ℚ × ℚ → ℚ) (dtraveled : ℚ) (fullpath subdir : String)
    (flds : RowFields) (prev_loc cur_loc : ℚ × ℚ) (ndx : ℕ) :
    List Effect × ((ℚ × ℚ) × ℕ) :=
  if dist prev_loc cur_loc > dtraveled then
    ([Effect.writeCSV (rowString flds (picnameOf subdir (ndx + 1))),
      Effect.capture (fullpath ++ "/" ++ picnameOf subdir (ndx + 1))],
     (cur_loc, ndx + 1))
  else
    ([], (cur_loc, ndx))

/-- Execute an effect list in order against a camera that succeeds iff
`captureOk`: returns the CSV rows actually appended, the photo files
actually written, and whether the run completed without an exception.
A failing capture aborts the run, but writes that already happened
persist (the CSV file was opened, written and closed at lines 153-154
before the camera is touched). -/
def runEffects (captureOk : Bool) : List Effect → List String × List String × Bool
  | [] => ([], [], true)
  | Effect.writeCSV row :: es =>
    let p := runEffects captureOk es
    (row :: p.1, p.2.1, p.2.2)
  | Effect.capture path :: es =>
    if captureOk then
      let p := runEffects captureOk es
      (p.1, path :: p.2.1, p.2.2)
    else ([], [], false)

/-- Session-state update of one `logGPSdata` call, as consumed by the
main loop's `(prev_loc,ndx) = logGPSdata(...)` (gpslogger.py line 231). -/
def logStep (dist : ℚ × ℚ → ℚ × ℚ → ℚ) (dtraveled : ℚ) (fullpath subdir : String)
    (flds : RowFields) (st : (ℚ × ℚ) × ℕ) (cur_loc : ℚ × ℚ) : (ℚ × ℚ) × ℕ :=
  (logGPSdata dist dtraveled fullpath subdir flds st.1 cur_loc st.2).2

/-- A SKY report with seven visible satellites, for concrete runs. -/
def demoSky : Report :=
  { cls := "SKY", satCount := 7, lat := none, lon := none, mode := none }

/-- A TPV report with a valid 3D fix at (40, -74), for concrete runs. -/
def demoTpv : Report :=
  { cls := "TPV", satCount := 0, lat := some (PyVal.num 40),
    lon := some (PyVal.num (-74)), mode := some (PyVal.num 3) }

/-- The acquisition state reached from `initAcqState` after `demoSky`
then `demoTpv`. -/
def demoFinal : AcqState :=
  acceptState (skyState initAcqState demoSky) demoTpv
    (PyFloat.fin 40) (PyFloat.fin (-74)) 3

/-- Concrete row fields for first demo logging event. -/
def demoFlds : RowFields :=
  ⟨"Oct 12 2025", "01:02:03PM CDT", "40.7128", "-74.006", "22.4",
   "328.1", "72.5", "7"⟩

/-- Concrete row fields for a second demo logging event. -/
def demoFlds2 : RowFields :=
  ⟨"Oct 12 2025", "01:03:04PM CDT", "40.7131", "-74.007", "21.9",
   "328.4", "72.6", "7"⟩

lemma pyInt_of_nonneg {q : ℚ} (h : 0 ≤ q) : pyInt q = ⌊q⌋ := if_pos h

lemma sub_pyInt_eq_fract {q : ℚ} (h : 0 ≤ q) : q - (pyInt q : ℚ) = Int.fract q := by
  rw [pyInt_of_nonneg h, Int.self_sub_floor]

lemma acquireStep_preserves_save {st st2 : AcqState} {r : Report} {b : Bool}
    (h : acquireStep st r = Except.ok (st2, b))
    (inv : st.noCoords = false → st.saveReport.isSome = true) :
    st2.noCoords = false → st2.saveReport.isSome = true := by
  unfold acquireStep at h
  split at h
  · cases h
    simp only [skyState]
    exact fun hc => inv hc
  · split at h
    · cases hfix : latlonfix r with
      | error e => rw [hfix] at h; cases h
      | ok v =>
        obtain ⟨la, lo, fx⟩ := v
        rw [hfix] at h
        dsimp only at h
        split at h
        · cases h
          intro _
          simp [acceptState]
        · split at h
          · cases h
            simp only [rejectState]
            exact fun hc => inv hc
          · cases h
            simp only [rejectState]
            exact fun hc => inv hc
    · cases h
      exact inv

lemma acquireLoop_exit_aux (rs : List Report) : ∀ (st st2 : AcqState) (n : ℕ),
    (st.noCoords = false → st.saveReport.isSome = true) →
    acquireLoop st rs = Except.ok (some st2, n) →
    st2.noSats = false ∧ st2.noCoords = false ∧ st2.saveReport.isSome = true := by
  induction rs with
  | nil =>
    intro st st2 n inv h
    unfold acquireLoop at h
    split at h
    · rename_i hcond
      cases h
      exact ⟨hcond.1, hcond.2, inv hcond.2⟩
    · cases h
  | cons r rest ih =>
    intro st st2 n inv h
    unfold acquireLoop at h
    split at h
    · rename_i hcond
      cases h
      exact ⟨hcond.1, hcond.2, inv hcond.2⟩
    · cases hstep : acquireStep st r with
      | error e => rw [hstep] at h; cases h
      | ok p =>
        obtain ⟨stMid, slept⟩ := p
        rw [hstep] at h
        dsimp only at h
        cases hloop : acquireLoop stMid rest with
        | error e => rw [hloop] at h; cases h
        | ok q =>
          obtain ⟨res, m⟩ := q
          rw [hloop] at h
          dsimp only at h
          cases h
          exact ih stMid st2 m (acquireStep_preserves_save hstep inv) hloop

lemma logStep_ndx_le (dist : ℚ × ℚ → ℚ × ℚ → ℚ) (dtraveled : ℚ)
    (fullpath subdir : String) (flds : RowFields) (st : (ℚ × ℚ) × ℕ) (cur : ℚ × ℚ) :
    st.2 ≤ (logStep dist dtraveled fullpath subdir flds st cur).2 := by
  unfold logStep logGPSdata
  split <;> simp

lemma foldl_logStep_mono (dist : ℚ × ℚ → ℚ × ℚ → ℚ) (dtraveled : ℚ)
    (fullpath subdir : String) (flds : RowFields) (curs : List (ℚ × ℚ)) :
    ∀ st : (ℚ × ℚ) × ℕ,
      st.2 ≤ (curs.foldl (logStep dist dtraveled fullpath subdir flds) st).2 := by
  induction curs with
  | nil => intro st; simp
  | cons c cs ih =>
    intro st
    calc st.2 ≤ (logStep dist dtraveled fullpath subdir flds st c).2 :=
          logStep_ndx_le dist dtraveled fullpath subdir flds st c
      _ ≤ _ := by simpa using ih (logStep dist dtraveled fullpath subdir flds st c)

/-- C1 counterexample: a gated invocation (distance 50 ≤ threshold 100)
does not return the session state unchanged — the returned last position
is the newly acquired fix (1, 1), not the previous position (0, 0). -/
theorem c1_gated_cycle_changes_position :
    (fun _ _ => (50 : ℚ)) ((0 : ℚ), (0 : ℚ)) ((1 : ℚ), (1 : ℚ)) ≤ 100 ∧
    (logGPSdata (fun _ _ => (50 : ℚ)) 100 "/usr/local/gpsdata/run" "run"
        demoFlds ((0 : ℚ), (0 : ℚ)) ((1 : ℚ), (1 : ℚ)) 5).2
      ≠ (((0 : ℚ), (0 : ℚ)), 5) := by
  constructor
  · norm_num
  · norm_num [logGPSdata, demoFlds, Prod.ext_iff]

/-- C1 (amended): when the computed distance does not exceed the
threshold, the invocation produces no CSV row and no photo and leaves
the photo index unchanged, but the returned last position is set to the
newly acquired fix — so the distance baseline of the next invocation is
the last seen fix, not the last logged position. -/
theorem c1_gated_cycle_no_output_index_unchanged
    (dist : ℚ × ℚ → ℚ × ℚ → ℚ) (dtraveled : ℚ) (fullpath subdir : String)
    (flds : RowFields) (prev_loc cur_loc : ℚ × ℚ) (ndx : ℕ)
    (h : dist prev_loc cur_loc ≤ dtraveled) :
    logGPSdata dist dtraveled fullpath subdir flds prev_loc cur_loc ndx
      = ([], (cur_loc, ndx)) := by
  simp [logGPSdata, not_lt.mpr h]

/-- C1 witness: concrete gated invocation with distance 50 and
threshold 100. -/
theorem c1_gated_cycle_no_output_index_unchanged_witness :
    (fun _ _ => (50 : ℚ)) ((0 : ℚ), (0 : ℚ)) ((1 : ℚ), (1 : ℚ)) ≤ 100 ∧
    logGPSdata (fun _ _ => (50 : ℚ)) 100 "/usr/local/gpsdata/run" "run"
        demoFlds ((0 : ℚ), (0 : ℚ)) ((1 : ℚ), (1 : ℚ)) 5
      = ([], (((1 : ℚ), (1 : ℚ)), 5)) :=
  ⟨by norm_num,
   c1_gated_cycle_no_output_index_unchanged (fun _ _ => (50 : ℚ)) 100
     "/usr/local/gpsdata/run" "run" demoFlds ((0 : ℚ), (0 : ℚ))
     ((1 : ℚ), (1 : ℚ)) 5 (by norm_num)⟩

/-- C2: behavior of the fix-acquisition loop.  (1) A position (TPV)
report, while coordinates are still pending, is accepted as the final
fix exactly when both parsed coordinates are truthy — i.e. nonzero —
and acceptance saves the report; when it is not accepted, the iteration
sleeps (the `time.sleep(0.5)` of line 119) exactly when the parsed
fix-quality field `satfix` is 0, i.e. indicates no valid fix.
(2) A SKY report records the satellite count once (first SKY only);
(3) later SKY reports change nothing; (4) TPV reports after acceptance
change nothing; (5) reports of any other class are ignored; and (6) the
loop exits only once both a satellite count and a valid accepted fix
have been obtained. -/
theorem c2_fix_acquisition_loop :
    (∀ (st : AcqState) (r : Report) (lat lon : PyFloat) (satfix : ℤ),
        r.cls = "TPV" → st.noCoords = true →
        latlonfix r = Except.ok (lat, lon, satfix) →
        ((pyTruthy lon && pyTruthy lat) = true →
          acquireStep st r = Except.ok (acceptState st r lat lon satfix, false)) ∧
        ((pyTruthy lon && pyTruthy lat) = false →
          acquireStep st r =
            Except.ok (rejectState st lat lon satfix, decide (satfix = 0)))) ∧
    (∀ (st : AcqState) (r : Report), r.cls = "SKY" → st.noSats = true →
        acquireStep st r = Except.ok (skyState st r, false)) ∧
    (∀ (st : AcqState) (r : Report), r.cls = "SKY" → st.noSats = false →
        acquireStep st r = Except.ok (st, false)) ∧
    (∀ (st : AcqState) (r : Report), r.cls = "TPV" → st.noCoords = false →
        acquireStep st r = Except.ok (st, false)) ∧
    (∀ (st : AcqState) (r : Report), r.cls ≠ "SKY" → r.cls ≠ "TPV" →
        acquireStep st r = Except.ok (st, false)) ∧
    (∀ (rs : List Report) (st2 : AcqState) (n : ℕ),
        acquireLoop initAcqState rs = Except.ok (some st2, n) →
        st2.noSats = false ∧ st2.noCoords = false ∧ st2.saveReport.isSome = true) := by
  refine ⟨?_, ?_, ?_, ?_, ?_, ?_⟩
  · intro st r lat lon satfix hcls hnc hfix
    constructor
    · intro htr
      simp [acquireStep, hcls, hnc, hfix, htr]
    · intro htr
      by_cases hfx : satfix = 0 <;>
        simp [acquireStep, hcls, hnc, hfix, htr, hfx]
  · intro st r hcls hns
    simp [acquireStep, hcls, hns]
  · intro st r hcls hns
    simp [acquireStep, hcls, hns]
  · intro st r hcls hnc
    simp [acquireStep, hcls, hnc]
  · intro st r hs ht
    simp [acquireStep, hs, ht]
  · intro rs st2 n h
    exact acquireLoop_exit_aux rs initAcqState st2 n (by simp [initAcqState]) h

/-- C2 witness: a concrete SKY report is recorded, and a concrete
two-report stream (SKY then a valid TPV at (40, -74)) makes the loop
exit with both flags cleared and the report saved. -/
theorem c2_fix_acquisition_loop_witness :
    acquireStep initAcqState demoSky = Except.ok (skyState initAcqState demoSky, false) ∧
    acquireStep (skyState initAcqState demoSky) demoTpv =
      Except.ok (demoFinal, false) ∧
    acquireLoop initAcqState [demoSky, demoTpv] = Except.ok (some demoFinal, 0) ∧
    demoFinal.noSats = false ∧ demoFinal.noCoords = false ∧
    demoFinal.saveReport.isSome = true := by
  have h1 : acquireStep initAcqState demoSky =
      Except.ok (skyState initAcqState demoSky, false) :=
    c2_fix_acquisition_loop.2.1 initAcqState demoSky rfl rfl
  have hfix : latlonfix demoTpv =
      Except.ok (PyFloat.fin 40, PyFloat.fin (-74), 3) := by decide
  have h2 : acquireStep (skyState initAcqState demoSky) demoTpv =
      Except.ok (demoFinal, false) :=
    ((c2_fix_acquisition_loop.1 (skyState initAcqState demoSky) demoTpv
        (PyFloat.fin 40) (PyFloat.fin (-74)) 3 rfl rfl hfix).1 (by decide))
  have h3 : acquireLoop initAcqState [demoSky, demoTpv] =
      Except.ok (some demoFinal, 0) := by decide
  have h4 := c2_fix_acquisition_loop.2.2.2.2.2 [demoSky, demoTpv] demoFinal 0 h3
  exact ⟨h1, h2, h3, h4.1, h4.2.1, h4.2.2⟩

/-- C3: the logging gate is a strict threshold — a distance exactly
equal to the threshold produces no log record, a distance strictly
greater produces one CSV row followed by one photo capture. -/
theorem c3_strict_threshold_gate
    (dist : ℚ × ℚ → ℚ × ℚ → ℚ) (dtraveled : ℚ) (fullpath subdir : String)
    (flds : RowFields) (prev_loc cur_loc : ℚ × ℚ) (ndx : ℕ) :
    (dist prev_loc cur_loc = dtraveled →
      (logGPSdata dist dtraveled fullpath subdir flds prev_loc cur_loc ndx).1 = []) ∧
    (dist prev_loc cur_loc > dtraveled →
      (logGPSdata dist dtraveled fullpath subdir flds prev_loc cur_loc ndx).1 =
        [Effect.writeCSV (rowString flds (picnameOf subdir (ndx + 1))),
         Effect.capture (fullpath ++ "/" ++ picnameOf subdir (ndx + 1))]) := by
  constructor
  · intro h
    simp [logGPSdata, h]
  · intro h
    simp [logGPSdata, h]

/-- C3 witness: with threshold 100, distance exactly 100 yields no
effects and distance 101 yields a row and a capture. -/
theorem c3_strict_threshold_gate_witness :
    ((fun _ _ => (100 : ℚ)) ((0 : ℚ), (0 : ℚ)) ((1 : ℚ), (1 : ℚ)) = 100 ∧
      (logGPSdata (fun _ _ => (100 : ℚ)) 100 "/usr/local/gpsdata/run" "run"
          demoFlds ((0 : ℚ), (0 : ℚ)) ((1 : ℚ), (1 : ℚ)) 5).1 = []) ∧
    ((fun _ _ => (101 : ℚ)) ((0 : ℚ), (0 : ℚ)) ((1 : ℚ), (1 : ℚ)) > 100 ∧
      (logGPSdata (fun _ _ => (101 : ℚ)) 100 "/usr/local/gpsdata/run" "run"
          demoFlds ((0 : ℚ), (0 : ℚ)) ((1 : ℚ), (1 : ℚ)) 5).1 =
        [Effect.writeCSV (rowString demoFlds (picnameOf "run" 6)),
         Effect.capture ("/usr/local/gpsdata/run" ++ "/" ++ picnameOf "run" 6)]) :=
  ⟨⟨rfl,
    (c3_strict_threshold_gate (fun _ _ => (100 : ℚ)) 100 "/usr/local/gpsdata/run"
        "run" demoFlds ((0 : ℚ), (0 : ℚ)) ((1 : ℚ), (1 : ℚ)) 5).1 rfl⟩,
   ⟨by norm_num,
    (c3_strict_threshold_gate (fun _ _ => (101 : ℚ)) 100 "/usr/local/gpsdata/run"
        "run" demoFlds ((0 : ℚ), (0 : ℚ)) ((1 : ℚ), (1 : ℚ)) 5).2 (by norm_num)⟩⟩

/-- C4: within a logging event that passes the gate, the CSV append
occurs strictly before the photo capture in the effect order; running
the effects against a failing camera therefore leaves exactly the one
already-written CSV row (which embeds the photo filename) and no photo
file, with the event aborted. -/
theorem c4_csv_written_before_capture
    (dist : ℚ × ℚ → ℚ × ℚ → ℚ) (dtraveled : ℚ) (fullpath subdir : String)
    (flds : RowFields) (prev_loc cur_loc : ℚ × ℚ) (ndx : ℕ)
    (h : dist prev_loc cur_loc > dtraveled) :
    (logGPSdata dist dtraveled fullpath subdir flds prev_loc cur_loc ndx).1 =
      [Effect.writeCSV (rowString flds (picnameOf subdir (ndx + 1))),
       Effect.capture (fullpath ++ "/" ++ picnameOf subdir (ndx + 1))] ∧
    runEffects false
        (logGPSdata dist dtraveled fullpath subdir flds prev_loc cur_loc ndx).1 =
      ([rowString flds (picnameOf subdir (ndx + 1))], [], false) := by
  constructor
  · simp [logGPSdata, h]
  · simp [logGPSdata, h, runEffects]

/-- C4 witness: concrete logging event (distance 101 > threshold 100)
run against a failing camera. -/
theorem c4_csv_written_before_capture_witness :
    (fun _ _ => (101 : ℚ)) ((0 : ℚ), (0 : ℚ)) ((1 : ℚ), (1 : ℚ)) > 100 ∧
    runEffects false
        (logGPSdata (fun _ _ => (101 : ℚ)) 100 "/usr/local/gpsdata/run" "run"
          demoFlds ((0 : ℚ), (0 : ℚ)) ((1 : ℚ), (1 : ℚ)) 5).1 =
      ([rowString demoFlds (picnameOf "run" 6)], [], false) :=
  ⟨by norm_num,
   (c4_csv_written_before_capture (fun _ _ => (101 : ℚ)) 100
      "/usr/local/gpsdata/run" "run" demoFlds ((0 : ℚ), (0 : ℚ))
      ((1 : ℚ), (1 : ℚ)) 5 (by norm_num)).2⟩

/-- C5 (code bug): the data-row format string of line 154 contains no
newline, so data rows are not terminated.  Concretely: the header ends
its line, a data row contains no newline at all, and the file content
after the header and two logging events still contains exactly one
newline — both data rows sit concatenated on a single line. -/
theorem c5_rows_not_newline_terminated :
    csvHeader.toList.count '\n' = 1 ∧
    (rowString demoFlds (picnameOf "251012.130203" 1)).toList.count '\n' = 0 ∧
    (csvHeader
      ++ rowString demoFlds (picnameOf "251012.130203" 1)
      ++ rowString demoFlds2 (picnameOf "251012.130203" 2)).toList.count '\n'
      = 1 :=
  ⟨by decide, by decide, by decide⟩

/-- C6 (code bug): `strtofloat` accepts the infinities.  `is_number`
tests `x == x`, which is `False` only for NaN, so `"+Infinity"` and
`"-Infinity"` are returned as infinities rather than replaced by the
0.0 default — contrary to the source comment "this will return false
for NaN and Inf" and to the spec.  NaN and unparseable strings do
degrade to 0.0, and finite numeric strings parse to their value. -/
theorem c6_strtofloat_infinity_accepted :
    strtofloat (PyVal.str "+Infinity") = PyFloat.inf ∧
    strtofloat (PyVal.str "-Infinity") = PyFloat.ninf ∧
    PyFloat.inf ≠ PyFloat.fin 0 ∧
    strtofloat (PyVal.str "NaN") = PyFloat.fin 0 ∧
    strtofloat (PyVal.str "abc") = PyFloat.fin 0 ∧
    strtofloat (PyVal.str "12.5") = PyFloat.fin (25 / 2) := by
  refine ⟨by decide, by decide, by decide, by decide, by decide, ?_⟩
  have h : strtofloat (PyVal.str "12.5") = PyFloat.fin (mkRat 25 2) := by decide
  rw [h, Rat.mkRat_eq_div]
  norm_num

/-- C7: for every input, `dec2dms` returns exactly the truncation-based
triple (int(|x|), int(60·f), int(6000·(60·f − minutes))) where f is the
fractional part of |x|, and it is sign-agnostic:
dec2dms x = dec2dms (−x). -/
theorem c7_dec2dms_truncation_and_sign_agnostic : ∀ x : ℚ,
    dec2dms x = dec2dms (-x) ∧
    dec2dms x = (pyInt |x|, pyInt (60 * Int.fract |x|),
      pyInt (6000 * (60 * Int.fract |x| - pyInt (60 * Int.fract |x|)))) := by
  intro x
  constructor
  · simp [dec2dms, abs_neg]
  · have ha : (0 : ℚ) ≤ |x| := abs_nonneg x
    simp only [dec2dms]
    rw [sub_pyInt_eq_fract ha]

/-- C8 counterexample: `dec2dms 40.7128` is not (40, 42, 76). -/
theorem c8_dec2dms_40_7128_not_76 :
    dec2dms ((407128 : ℚ) / 10000) ≠ (40, 42, 76) := by
  simp only [dec2dms, pyInt]
  norm_num [Int.floor_eq_iff, Int.fract, abs_of_nonneg]

/-- C8 (amended): `dec2dms 40.7128 = (40, 42, 4608)` — 40° 42' 46.08",
with the seconds carried ×100 as an integer (4608 = 46.08 × 100); the
spec's expected value 76 is an arithmetic slip (it is
int(100 × 0.768), the fraction of a minute, not seconds×100). -/
theorem c8_dec2dms_40_7128_value :
    dec2dms ((407128 : ℚ) / 10000) = (40, 42, 4608) := by
  simp only [dec2dms, pyInt]
  norm_num [Int.floor_eq_iff, Int.fract, abs_of_nonneg]

/-- C9: the photo index returned by a logging event is ndx + 1 exactly
when the distance gate passes and ndx on a gated cycle, it never
decreases in one call, and it is monotonically non-decreasing across any
sequence of invocations as chained by the main loop. -/
theorem c9_photo_index_increment
    (dist : ℚ × ℚ → ℚ × ℚ → ℚ) (dtraveled : ℚ) (fullpath subdir : String)
    (flds : RowFields) (prev_loc cur_loc : ℚ × ℚ) (ndx : ℕ) :
    ((logGPSdata dist dtraveled fullpath subdir flds prev_loc cur_loc ndx).2.2 =
      if dist prev_loc cur_loc > dtraveled then ndx + 1 else ndx) ∧
    ndx ≤ (logGPSdata dist dtraveled fullpath subdir flds prev_loc cur_loc ndx).2.2 ∧
    (∀ curs : List (ℚ × ℚ),
      ndx ≤ (curs.foldl (logStep dist dtraveled fullpath subdir flds)
        (prev_loc, ndx)).2) := by
  refine ⟨?_, ?_, ?_⟩
  · unfold logGPSdata; split <;> simp_all
  · unfold logGPSdata; split <;> simp
  · intro curs
    simpa using foldl_logStep_mono dist dtraveled fullpath subdir flds curs
      (prev_loc, ndx)

/-- C10: every `dec2dms` triple has non-negative components with
minutes in 0..59 and seconds×100 in 0..5999, so each geotag component
"D/1,M/1,S/100" encodes in-range minutes and a seconds value strictly
below 60.00. -/
theorem c10_dms_component_ranges : ∀ x : ℚ,
    0 ≤ (dec2dms x).1 ∧
    0 ≤ (dec2dms x).2.1 ∧ (dec2dms x).2.1 ≤ 59 ∧
    0 ≤ (dec2dms x).2.2 ∧ (dec2dms x).2.2 ≤ 5999 := by
  intro x
  have ha : (0 : ℚ) ≤ |x| := abs_nonneg x
  have hf1 : Int.fract |x| < 1 := Int.fract_lt_one _
  have hf0 : (0 : ℚ) ≤ Int.fract |x| := Int.fract_nonneg _
  have hm0 : (0 : ℚ) ≤ 60 * Int.fract |x| := by positivity
  have hw := sub_pyInt_eq_fract hm0
  have hw0 : (0 : ℚ) ≤ Int.fract (60 * Int.fract |x|) := Int.fract_nonneg _
  have hw1 : Int.fract (60 * Int.fract |x|) < 1 := Int.fract_lt_one _
  simp only [dec2dms]
  rw [sub_pyInt_eq_fract ha, hw]
  rw [pyInt_of_nonneg ha, pyInt_of_nonneg hm0, pyInt_of_nonneg (by positivity)]
  refine ⟨Int.floor_nonneg.mpr ha, Int.floor_nonneg.mpr hm0, ?_,
    Int.floor_nonneg.mpr (by positivity), ?_⟩
  · have : ⌊60 * Int.fract |x|⌋ < 60 := Int.floor_lt.mpr (by push_cast; linarith)
    omega
  · have : ⌊6000 * Int.fract (60 * Int.fract |x|)⌋ < 6000 :=
      Int.floor_lt.mpr (by push_cast; linarith)
    omega

end GpsPi
